import Mathlib

/-!
Shallow embedding of `lampod/src/actions/handler.rs` (the `LampoHandler`
event-and-command dispatcher of the lampo Lightning node).

Modelling choices:
* Identifiers (node ids, channel ids, payment hashes, preimages) are `Nat`;
  scripts and serialized transactions are `List Nat` (byte sequences);
  `json::Value` payloads are opaque and modelled as `Nat`.
* The three collaborator subsystems consulted by the funding-generation arm
  (`chain_manager.backend.fee_rate_estimation`, `wallet_manager.create_transaction`,
  `channel_manager.manager().funding_transaction_generated`) are oracles collected
  in a `Collaborators` record.
* `handle` returns the ordered trace of externally visible actions (event-bus
  emissions and collaborator calls, in program order) together with its result.
  Rust's `Result<()>` is `HandleResult.ok` / `HandleResult.err`; a Rust panic
  (`Option::unwrap` on `None` in the `PaymentClaimable` arm) is the distinct
  outcome `HandleResult.panicked`.
* `react` likewise returns its (empty) action trace plus `Except` result, and
  `add_external_handler` acts on the plain list standing for the
  `RefCell<Vec<Arc<dyn ExternalHandler>>>` field.
-/

namespace Lampo

abbrev NodeId := Nat
abbrev ChannelId := Nat
abbrev TempChanId := Nat
abbrev Script := List Nat
abbrev Tx := List Nat
abbrev Preimage := Nat
abbrev PaymentHash := Nat
abbrev Err := String
abbrev Value := Nat

/-- A bitcoin outpoint (txid + output index), as carried by `ChannelClosed` and
`ChannelPending`. -/
structure OutPoint where
  txid : Nat
  vout : Nat
deriving DecidableEq, Repr

/-- Display form of an outpoint, standing for Rust's `txo.to_string()`. -/
def outPointStr (o : OutPoint) : String :=
  toString o.txid ++ ":" ++ toString o.vout

/-- The `PaymentState` enum from `lampo_common::model::response`. -/
inductive PaymentState where
  | success
  | pending
  | failure
deriving DecidableEq, Repr

/-- A payment hop in the lampo response model (converted from an ldk route hop). -/
structure PaymentHop where
  hop : Nat
deriving DecidableEq, Repr

/-- Stands for `PaymentHop::from(hop.clone())`. -/
def paymentHopFrom (h : Nat) : PaymentHop := ⟨h⟩

/-- An ldk `Path`: the route taken by a payment, a list of hops. -/
structure Path where
  hops : List Nat
deriving DecidableEq, Repr

/-- The four ldk `PaymentPurpose` sub-kinds matched in the `PaymentClaimable`
and `PaymentClaimed` arms. In the bolt11/bolt12 kinds the preimage is optional;
a spontaneous payment always carries one. -/
inductive PaymentPurpose where
  | Bolt11InvoicePayment (payment_preimage : Option Preimage) (payment_secret : Nat)
  | Bolt12OfferPayment (payment_preimage : Option Preimage) (payment_secret : Nat)
  | Bolt12RefundPayment (payment_preimage : Option Preimage) (payment_secret : Nat)
  | SpontaneousPayment (preimage : Preimage)
deriving DecidableEq, Repr

/-- The ldk protocol events matched by `LampoHandler::handle`, with the fields
the code actually reads. `Other` stands for every variant that reaches the
catch-all `_` arm, carrying its debug representation. -/
inductive LdkEvent where
  | OpenChannelRequest (temporary_channel_id : TempChanId) (counterparty_node_id : NodeId)
      (funding_satoshis : Nat) (channel_type : String)
  | ChannelReady (channel_id : ChannelId) (user_channel_id : Nat)
      (counterparty_node_id : NodeId) (channel_type : String)
  | ChannelClosed (channel_id : ChannelId) (user_channel_id : Nat) (reason : String)
      (counterparty_node_id : Option NodeId) (channel_funding_txo : Option OutPoint)
  | FundingGenerationReady (temporary_channel_id : TempChanId) (counterparty_node_id : NodeId)
      (channel_value_satoshis : Nat) (output_script : Script)
  | ChannelPending (counterparty_node_id : NodeId) (funding_txo : OutPoint)
  | PendingHTLCsForwardable (time_forwardable : Nat)
  | PaymentClaimable (receiver_node_id : Option NodeId) (payment_hash : PaymentHash)
      (amount_msat : Nat) (purpose : PaymentPurpose)
  | PaymentClaimed (receiver_node_id : Option NodeId) (payment_hash : PaymentHash)
      (amount_msat : Nat) (purpose : PaymentPurpose)
  | PaymentSent (payment_hash : PaymentHash)
  | PaymentPathSuccessful (payment_hash : Option PaymentHash) (path : Path)
  | Other (debug : String)
deriving DecidableEq, Repr

/-- The lampo domain events (`LightningEvent`) emitted on the event bus. -/
inductive LightningEvent where
  | ChannelReady (counterparty_node_id : NodeId) (channel_id : ChannelId) (channel_type : String)
  | CloseChannelEvent (channel_id : String) (message : String)
      (counterparty_node_id : Option String) (funding_utxo : Option String)
  | FundingChannelStart (counterparty_node_id : NodeId) (temporary_channel_id : TempChanId)
      (channel_value_satoshis : Nat)
  | FundingChannelEnd (counterparty_node_id : NodeId) (temporary_channel_id : TempChanId)
      (channel_value_satoshis : Nat) (funding_transaction : Tx)
  | ChannelPending (counterparty_node_id : NodeId) (funding_transaction : OutPoint)
  | ChannelEvent (state : String) (message : String)
  | PaymentEvent (state : PaymentState) (payment_hash : Option String) (path : List PaymentHop)
deriving DecidableEq, Repr

/-- One externally visible action of the dispatcher, in program order: an
event-bus emission or a collaborator call. -/
inductive Action where
  | emit (event : LightningEvent)
  | fee_rate_estimation (target : Nat)
  | create_transaction (script : Script) (amount_sat : Nat) (fee_rate : Nat)
  | funding_transaction_generated (temporary_channel_id : TempChanId)
      (counterparty_node_id : NodeId) (transaction : Tx)
  | claim_funds (preimage : Preimage)
  | process_pending_htlc_forwards
deriving DecidableEq, Repr

/-- Result of `handle`: Rust's `error::Result<()>` outcome, or a panic
(`Option::unwrap` on `None`). -/
inductive HandleResult where
  | ok
  | err (msg : String)
  | panicked (msg : String)
deriving DecidableEq, Repr

/-- The fallible collaborator operations consulted by the funding-generation
arm, as oracles. -/
structure Collaborators where
  fee_rate_estimation : Nat → Except Err Nat
  create_transaction : Script → Nat → Nat → Except Err Tx
  funding_transaction_generated : TempChanId → NodeId → Tx → Except Err Unit

/-- Stands for `Amount::from_sat`, amounts being measured in satoshis. -/
def amountFromSat (sat : Nat) : Nat := sat

/-- Stands for `FeeRate::from_sat_per_vb_unchecked(fee as u64)`, fee rates
being measured in satoshis per virtual byte. -/
def feeRateFromSatPerVbUnchecked (fee : Nat) : Nat := fee

/-- The events emitted on the domain event bus during a trace. -/
def emittedEvents (trace : List Action) : List LightningEvent :=
  trace.filterMap fun a =>
    match a with
    | .emit e => some e
    | _ => none

/-- Embedding of `LampoHandler::handle` (handler.rs:113-280): the action trace
in program order, paired with the result. -/
def handle (c : Collaborators) (event : LdkEvent) : List Action × HandleResult :=
  match event with
  | .OpenChannelRequest _ _ _ _ =>
      ([], .err "Request for open a channel received, unfortunatly we do not support this feature yet.")
  | .ChannelReady channel_id _user_channel_id counterparty_node_id channel_type =>
      ([.emit (.ChannelReady counterparty_node_id channel_id channel_type)], .ok)
  | .ChannelClosed channel_id _user_channel_id reason counterparty_node_id channel_funding_txo =>
      ([.emit (.CloseChannelEvent (toString channel_id) reason
          (counterparty_node_id.map toString) (channel_funding_txo.map outPointStr))], .ok)
  | .FundingGenerationReady temporary_channel_id counterparty_node_id channel_value_satoshis output_script =>
      match c.fee_rate_estimation 6 with
      | .error e =>
          ([.emit (.FundingChannelStart counterparty_node_id temporary_channel_id channel_value_satoshis),
            .fee_rate_estimation 6,
            .emit (.ChannelEvent "error" ("Channel Opening Error: " ++ e))],
           .err e)
      | .ok fee =>
          match c.create_transaction output_script (amountFromSat channel_value_satoshis)
              (feeRateFromSatPerVbUnchecked fee) with
          | .error e =>
              ([.emit (.FundingChannelStart counterparty_node_id temporary_channel_id channel_value_satoshis),
                .fee_rate_estimation 6,
                .create_transaction output_script (amountFromSat channel_value_satoshis)
                  (feeRateFromSatPerVbUnchecked fee)],
               .err e)
          | .ok transaction =>
              match c.funding_transaction_generated temporary_channel_id counterparty_node_id transaction with
              | .error e =>
                  ([.emit (.FundingChannelStart counterparty_node_id temporary_channel_id channel_value_satoshis),
                    .fee_rate_estimation 6,
                    .create_transaction output_script (amountFromSat channel_value_satoshis)
                      (feeRateFromSatPerVbUnchecked fee),
                    .emit (.FundingChannelEnd counterparty_node_id temporary_channel_id
                      channel_value_satoshis transaction),
                    .funding_transaction_generated temporary_channel_id counterparty_node_id transaction],
                   .err e)
              | .ok _ =>
                  ([.emit (.FundingChannelStart counterparty_node_id temporary_channel_id channel_value_satoshis),
                    .fee_rate_estimation 6,
                    .create_transaction output_script (amountFromSat channel_value_satoshis)
                      (feeRateFromSatPerVbUnchecked fee),
                    .emit (.FundingChannelEnd counterparty_node_id temporary_channel_id
                      channel_value_satoshis transaction),
                    .funding_transaction_generated temporary_channel_id counterparty_node_id transaction],
                   .ok)
  | .ChannelPending counterparty_node_id funding_txo =>
      ([.emit (.ChannelPending counterparty_node_id funding_txo)], .ok)
  | .PendingHTLCsForwardable _time_forwardable =>
      ([.process_pending_htlc_forwards], .ok)
  | .PaymentClaimable _receiver_node_id _payment_hash _amount_msat purpose =>
      let preimage :=
        match purpose with
        | .Bolt11InvoicePayment payment_preimage _ => payment_preimage
        | .Bolt12OfferPayment payment_preimage _ => payment_preimage
        | .Bolt12RefundPayment payment_preimage _ => payment_preimage
        | .SpontaneousPayment p => some p
      match preimage with
      | some p => ([.claim_funds p], .ok)
      | none => ([], .panicked "called Option unwrap on a None value")
  | .PaymentClaimed _receiver_node_id _payment_hash _amount_msat _purpose =>
      ([], .ok)
  | .PaymentSent _ =>
      ([], .ok)
  | .PaymentPathSuccessful payment_hash path =>
      ([.emit (.PaymentEvent .success (payment_hash.map toString)
          (path.hops.map paymentHopFrom))], .ok)
  | .Other debug =>
      ([], .err ("unexpected ldk event: " ++ debug))

/-- An external command request: a method name plus an opaque payload. -/
structure Request where
  method : String
  payload : Value
deriving DecidableEq, Repr

/-- An external handler: `handle(&req)` returns `Result<Option<Value>>` —
a failure, a decline (`None`), or a produced response. -/
abbrev ExtHandler := Request → Except Err (Option Value)

/-- The `Command` union: currently only `ExternalCommand`. -/
inductive Command where
  | externalCommand (req : Request)

/-- Embedding of `LampoHandler::add_external_handler` (handler.rs:59-63):
pushes the handler onto the `external_handlers` vector and returns `Ok(())`. -/
def add_external_handler (external_handlers : List ExtHandler) (handler : ExtHandler) :
    List ExtHandler × Except Err Unit :=
  (external_handlers ++ [handler], .ok ())

/-- The iteration inside `LampoHandler::react` over the external handler
chain: first produced response wins, a handler failure propagates via `?`,
and exhaustion bails with a method-not-found error. -/
def reactLoop (handlers : List ExtHandler) (req : Request) : Except Err Value :=
  match handlers with
  | [] => .error ("method `" ++ req.method ++ "` not found")
  | h :: rest =>
      match h req with
      | .error e => .error e
      | .ok (some resp) => .ok resp
      | .ok none => reactLoop rest req

/-- Embedding of `LampoHandler::react` (handler.rs:96-110), paired with its
(empty) action trace: the command path never touches the event bus. -/
def react (handlers : List ExtHandler) (event : Command) : List Action × Except Err Value :=
  match event with
  | .externalCommand req => ([], reactLoop handlers req)

/-- Whether an ldk event is the (multi-step) `FundingGenerationReady` variant. -/
def LdkEvent.isFundingGenReady : LdkEvent → Bool
  | .FundingGenerationReady _ _ _ _ => true
  | _ => false

/-- C1: when fee estimation and wallet transaction construction both succeed,
a `FundingGenerationReady` event produces exactly the trace: one
`FundingChannelStart` emission, the fee-estimation call, the wallet call with
the event's output script, channel value and estimated fee rate, one
`FundingChannelEnd` emission carrying the wallet's transaction, and finally the
finalize call with that same transaction — regardless of the finalize outcome. -/
theorem handle_funding_generation_ready_success (c : Collaborators)
    (temporary_channel_id counterparty_node_id channel_value_satoshis : Nat)
    (output_script : Script) (fee : Nat) (transaction : Tx)
    (hfee : c.fee_rate_estimation 6 = Except.ok fee)
    (htx : c.create_transaction output_script (amountFromSat channel_value_satoshis)
        (feeRateFromSatPerVbUnchecked fee) = Except.ok transaction) :
    (handle c (LdkEvent.FundingGenerationReady temporary_channel_id counterparty_node_id
        channel_value_satoshis output_script)).1 =
      [Action.emit (LightningEvent.FundingChannelStart counterparty_node_id
          temporary_channel_id channel_value_satoshis),
       Action.fee_rate_estimation 6,
       Action.create_transaction output_script (amountFromSat channel_value_satoshis)
         (feeRateFromSatPerVbUnchecked fee),
       Action.emit (LightningEvent.FundingChannelEnd counterparty_node_id
          temporary_channel_id channel_value_satoshis transaction),
       Action.funding_transaction_generated temporary_channel_id counterparty_node_id
          transaction] := by
  cases hfin : c.funding_transaction_generated temporary_channel_id counterparty_node_id
      transaction <;>
    simp [handle, hfee, htx, hfin]

/-- Witness for C1 at concrete collaborators (fee rate 5 sat/vB, wallet
returning transaction `[42]`) and a concrete event (value 100000 sat). -/
theorem handle_funding_generation_ready_success_witness :
    (handle ⟨fun _ => Except.ok 5, fun _ _ _ => Except.ok [42], fun _ _ _ => Except.ok ()⟩
        (LdkEvent.FundingGenerationReady 7 9 100000 [3, 1])).1 =
      [Action.emit (LightningEvent.FundingChannelStart 9 7 100000),
       Action.fee_rate_estimation 6,
       Action.create_transaction [3, 1] (amountFromSat 100000) (feeRateFromSatPerVbUnchecked 5),
       Action.emit (LightningEvent.FundingChannelEnd 9 7 100000 [42]),
       Action.funding_transaction_generated 7 9 [42]] :=
  handle_funding_generation_ready_success
    ⟨fun _ => Except.ok 5, fun _ _ _ => Except.ok [42], fun _ _ _ => Except.ok ()⟩
    7 9 100000 [3, 1] 5 [42] rfl rfl

/-- C2: when fee estimation fails, a `FundingGenerationReady` event produces
exactly the trace `FundingChannelStart`, the fee-estimation call, and a
`ChannelEvent` emission with state `"error"`, and the failure is returned; in
particular no `FundingChannelEnd` is emitted and neither the wallet's
`create_transaction` nor the channel manager's finalize is called. -/
theorem handle_funding_generation_ready_fee_error (c : Collaborators)
    (temporary_channel_id counterparty_node_id channel_value_satoshis : Nat)
    (output_script : Script) (e : Err)
    (hfee : c.fee_rate_estimation 6 = Except.error e) :
    handle c (LdkEvent.FundingGenerationReady temporary_channel_id counterparty_node_id
        channel_value_satoshis output_script) =
      ([Action.emit (LightningEvent.FundingChannelStart counterparty_node_id
          temporary_channel_id channel_value_satoshis),
        Action.fee_rate_estimation 6,
        Action.emit (LightningEvent.ChannelEvent "error" ("Channel Opening Error: " ++ e))],
       HandleResult.err e) := by
  simp [handle, hfee]

/-- Witness for C2 at a concrete failing chain collaborator. -/
theorem handle_funding_generation_ready_fee_error_witness :
    handle ⟨fun _ => Except.error "network down", fun _ _ _ => Except.ok [42],
        fun _ _ _ => Except.ok ()⟩
      (LdkEvent.FundingGenerationReady 7 9 100000 [3, 1]) =
      ([Action.emit (LightningEvent.FundingChannelStart 9 7 100000),
        Action.fee_rate_estimation 6,
        Action.emit (LightningEvent.ChannelEvent "error"
          ("Channel Opening Error: " ++ "network down"))],
       HandleResult.err "network down") :=
  handle_funding_generation_ready_fee_error
    ⟨fun _ => Except.error "network down", fun _ _ _ => Except.ok [42],
     fun _ _ _ => Except.ok ()⟩
    7 9 100000 [3, 1] "network down" rfl

/-- C3 (divergence exhibit): a `PaymentClaimable` event whose bolt11-invoice
purpose lacks a preimage does not call `claim_funds` (empty trace), but the
code panics via `Option::unwrap` on `None` instead of returning an error to
its caller. -/
theorem handle_payment_claimable_missing_preimage (c : Collaborators)
    (receiver_node_id : Option NodeId) (payment_hash amount_msat payment_secret : Nat) :
    handle c (LdkEvent.PaymentClaimable receiver_node_id payment_hash amount_msat
        (PaymentPurpose.Bolt11InvoicePayment none payment_secret)) =
      ([], HandleResult.panicked "called Option unwrap on a None value") := rfl

/-- C4: a `PaymentClaimable` event with a spontaneous-payment purpose calls
`claim_funds` exactly once with the carried preimage, emits no domain event,
and returns success. -/
theorem handle_payment_claimable_spontaneous (c : Collaborators)
    (receiver_node_id : Option NodeId) (payment_hash amount_msat preimage : Nat) :
    handle c (LdkEvent.PaymentClaimable receiver_node_id payment_hash amount_msat
        (PaymentPurpose.SpontaneousPayment preimage)) =
      ([Action.claim_funds preimage], HandleResult.ok) ∧
    emittedEvents (handle c (LdkEvent.PaymentClaimable receiver_node_id payment_hash
        amount_msat (PaymentPurpose.SpontaneousPayment preimage))).1 = [] :=
  ⟨rfl, rfl⟩

/-- Handlers that all decline contribute nothing to chain resolution: the loop
skips any declining leading segment. -/
theorem reactLoop_decline_prefix (pre rest : List ExtHandler) (req : Request)
    (hpre : ∀ g ∈ pre, g req = Except.ok none) :
    reactLoop (pre ++ rest) req = reactLoop rest req := by
  induction pre with
  | nil => rfl
  | cons g pre ih =>
      have hg : g req = Except.ok none := hpre g (List.mem_cons_self g pre)
      simp only [List.cons_append, reactLoop, hg]
      exact ih fun g' hg' => hpre g' (List.mem_cons_of_mem g hg')

/-- C5: `react` on an `ExternalCommand` returns the response of the first
handler (in registration order) producing one — for every tail of later
handlers, so none of them is consulted — and a handler that itself fails
aborts resolution immediately with that failure, again independently of every
later handler. -/
theorem react_first_match_short_circuits
    (pre post pre2 post2 : List ExtHandler) (h h2 : ExtHandler)
    (req req2 : Request) (v : Value) (e : Err)
    (hpre : ∀ g ∈ pre, g req = Except.ok none)
    (hh : h req = Except.ok (some v))
    (hpre2 : ∀ g ∈ pre2, g req2 = Except.ok none)
    (hh2 : h2 req2 = Except.error e) :
    react (pre ++ h :: post) (Command.externalCommand req) = ([], Except.ok v) ∧
    react (pre2 ++ h2 :: post2) (Command.externalCommand req2) = ([], Except.error e) := by
  constructor
  · simp [react, reactLoop_decline_prefix pre (h :: post) req hpre, reactLoop, hh]
  · simp [react, reactLoop_decline_prefix pre2 (h2 :: post2) req2 hpre2, reactLoop, hh2]

/-- Witness for C5: a declining handler, then a producing one, then an ignored
late handler; and a failing handler at the head of a second chain whose later
handler is ignored. -/
theorem react_first_match_short_circuits_witness :
    react [fun _ => Except.ok none, fun _ => Except.ok (some 7), fun _ => Except.ok (some 99)]
        (Command.externalCommand ⟨"getinfo", 0⟩) = ([], Except.ok 7) ∧
    react [fun _ => Except.error "boom", fun _ => Except.ok (some 1)]
        (Command.externalCommand ⟨"pay", 0⟩) = ([], Except.error "boom") :=
  react_first_match_short_circuits
    [fun _ => Except.ok none] [fun _ => Except.ok (some 99)]
    [] [fun _ => Except.ok (some 1)]
    (fun _ => Except.ok (some 7)) (fun _ => Except.error "boom")
    ⟨"getinfo", 0⟩ ⟨"pay", 0⟩ 7 "boom"
    (by intro g hg; rw [List.mem_singleton] at hg; rw [hg])
    rfl
    (by intro g hg; exact absurd hg (List.not_mem_nil g))
    rfl

/-- C6: when every registered handler declines (the empty chain included),
`react` fails with an error naming the requested method. -/
theorem react_method_not_found (handlers : List ExtHandler) (req : Request)
    (hall : ∀ g ∈ handlers, g req = Except.ok none) :
    react handlers (Command.externalCommand req) =
      ([], Except.error ("method `" ++ req.method ++ "` not found")) := by
  have h := reactLoop_decline_prefix handlers [] req hall
  rw [List.append_nil] at h
  simp [react, h, reactLoop]

/-- Witness for C6: the empty chain and an all-declining singleton chain both
fail with the method-not-found error for method `"unknown"`. -/
theorem react_method_not_found_witness :
    react [] (Command.externalCommand ⟨"unknown", 0⟩) =
      ([], Except.error ("method `" ++ "unknown" ++ "` not found")) ∧
    react [fun _ => Except.ok none] (Command.externalCommand ⟨"unknown", 0⟩) =
      ([], Except.error ("method `" ++ "unknown" ++ "` not found")) :=
  ⟨react_method_not_found [] ⟨"unknown", 0⟩
      (by intro g hg; exact absurd hg (List.not_mem_nil g)),
   react_method_not_found [fun _ => Except.ok none] ⟨"unknown", 0⟩
      (by intro g hg; rw [List.mem_singleton] at hg; rw [hg])⟩

/-- C7: any protocol event outside the ten modeled variants fails with an
"unexpected ldk event" error naming the event, with an empty action trace —
no domain event emitted, no collaborator invoked — and without panicking. -/
theorem handle_unexpected_event (c : Collaborators) (debug : String) :
    handle c (LdkEvent.Other debug) =
      ([], HandleResult.err ("unexpected ldk event: " ++ debug)) ∧
    emittedEvents (handle c (LdkEvent.Other debug)).1 = [] :=
  ⟨rfl, rfl⟩

/-- C8: registering an external handler appends it at the end of the chain and
always succeeds: one more element, the new handler last, the previously
registered segment unchanged, no capacity or duplication failure. -/
theorem add_external_handler_appends (external_handlers : List ExtHandler)
    (handler : ExtHandler) :
    (add_external_handler external_handlers handler).1.length
        = external_handlers.length + 1 ∧
    (add_external_handler external_handlers handler).1.getLast? = some handler ∧
    (add_external_handler external_handlers handler).1.take external_handlers.length
        = external_handlers ∧
    (add_external_handler external_handlers handler).2 = Except.ok () := by
  refine ⟨?_, ?_, ?_, rfl⟩
  · simp [add_external_handler]
  · simp [add_external_handler]
  · simp [add_external_handler]

/-- C9: every transition other than `FundingGenerationReady` is a
deterministic function of the incoming event alone — its outcome does not
depend on the collaborator oracles, so replaying the same event yields the
same emission and result — and for `ChannelReady`, `ChannelClosed`,
`ChannelPending` and `PaymentPathSuccessful` the emitted domain event is the
stated explicit function of the event's fields. -/
theorem handle_single_step_deterministic (c c' : Collaborators) (e : LdkEvent)
    (channel_id user_channel_id counterparty_node_id : Nat)
    (channel_type reason : String)
    (opt_node : Option NodeId) (opt_txo : Option OutPoint) (funding_txo : OutPoint)
    (opt_hash : Option PaymentHash) (path : Path)
    (hne : e.isFundingGenReady = false) :
    handle c e = handle c' e ∧
    handle c (LdkEvent.ChannelReady channel_id user_channel_id counterparty_node_id
        channel_type) =
      ([Action.emit (LightningEvent.ChannelReady counterparty_node_id channel_id
          channel_type)], HandleResult.ok) ∧
    handle c (LdkEvent.ChannelClosed channel_id user_channel_id reason opt_node opt_txo) =
      ([Action.emit (LightningEvent.CloseChannelEvent (toString channel_id) reason
          (opt_node.map toString) (opt_txo.map outPointStr))], HandleResult.ok) ∧
    handle c (LdkEvent.ChannelPending counterparty_node_id funding_txo) =
      ([Action.emit (LightningEvent.ChannelPending counterparty_node_id funding_txo)],
       HandleResult.ok) ∧
    handle c (LdkEvent.PaymentPathSuccessful opt_hash path) =
      ([Action.emit (LightningEvent.PaymentEvent PaymentState.success
          (opt_hash.map toString) (path.hops.map paymentHopFrom))], HandleResult.ok) := by
  refine ⟨?_, rfl, rfl, rfl, rfl⟩
  cases e <;> first
    | rfl
    | simp [LdkEvent.isFundingGenReady] at hne

/-- Witness for C9 at a concrete non-funding event (`PaymentSent`) and two
different collaborator records. -/
theorem handle_single_step_deterministic_witness :
    handle ⟨fun _ => Except.ok 5, fun _ _ _ => Except.ok [42], fun _ _ _ => Except.ok ()⟩
        (LdkEvent.PaymentSent 3) =
      handle ⟨fun _ => Except.error "down", fun _ _ _ => Except.error "no funds",
          fun _ _ _ => Except.error "dup"⟩
        (LdkEvent.PaymentSent 3) ∧
    handle ⟨fun _ => Except.ok 5, fun _ _ _ => Except.ok [42], fun _ _ _ => Except.ok ()⟩
        (LdkEvent.ChannelReady 1 2 3 "anchors") =
      ([Action.emit (LightningEvent.ChannelReady 3 1 "anchors")], HandleResult.ok) ∧
    handle ⟨fun _ => Except.ok 5, fun _ _ _ => Except.ok [42], fun _ _ _ => Except.ok ()⟩
        (LdkEvent.ChannelClosed 1 2 "cooperative" (some 4) (some ⟨8, 0⟩)) =
      ([Action.emit (LightningEvent.CloseChannelEvent (toString 1) "cooperative"
          ((some 4).map toString) ((some (⟨8, 0⟩ : OutPoint)).map outPointStr))],
       HandleResult.ok) ∧
    handle ⟨fun _ => Except.ok 5, fun _ _ _ => Except.ok [42], fun _ _ _ => Except.ok ()⟩
        (LdkEvent.ChannelPending 3 ⟨8, 0⟩) =
      ([Action.emit (LightningEvent.ChannelPending 3 ⟨8, 0⟩)], HandleResult.ok) ∧
    handle ⟨fun _ => Except.ok 5, fun _ _ _ => Except.ok [42], fun _ _ _ => Except.ok ()⟩
        (LdkEvent.PaymentPathSuccessful (some 6) ⟨[10, 11]⟩) =
      ([Action.emit (LightningEvent.PaymentEvent PaymentState.success
          ((some 6).map toString) (([10, 11] : List Nat).map paymentHopFrom))],
       HandleResult.ok) :=
  handle_single_step_deterministic
    ⟨fun _ => Except.ok 5, fun _ _ _ => Except.ok [42], fun _ _ _ => Except.ok ()⟩
    ⟨fun _ => Except.error "down", fun _ _ _ => Except.error "no funds",
     fun _ _ _ => Except.error "dup"⟩
    (LdkEvent.PaymentSent 3)
    1 2 3 "anchors" "cooperative" (some 4) (some ⟨8, 0⟩) ⟨8, 0⟩ (some 6) ⟨[10, 11]⟩
    rfl

/-- C10: the command-dispatch path never emits a domain event — for every
handler chain and every command, the action trace of `react` is empty, so the
event bus is untouched whether resolution succeeds or fails. -/
theorem react_emits_no_domain_event (handlers : List ExtHandler) (event : Command) :
    (react handlers event).1 = [] ∧
    emittedEvents (react handlers event).1 = [] := by
  cases event
  exact ⟨rfl, rfl⟩

end Lampo
